import Mathlib

/-!
Verification of the FL_AITP simulation program (src/fl_aitp_simulation.cc).

The program computes five metric series (latency, throughput, energy
efficiency, privacy loss, robustness) for three protocol strategies over a
fixed sweep of population sizes, and appends each series to a per
strategy-and-metric CSV table.  The embedding below translates the metric
functions, the CSV sink, the parameter struct and the relevant part of main
into Lean.  Doubles are idealised as exact rationals, except throughput whose
baseline uses the natural logarithm and is therefore modelled over the reals.
-/

/-- A row of a CSV table: the header line, or one comma-separated data row. -/
inductive CsvRow where
  | headerRow (h : String)
  | dataRow (vs : List ℝ)

/-- The on-disk state: the content of each file as a list of rows. -/
abbrev Fs := String → List CsvRow

/-- Embeds LogToCsv (src lines 19-34).  The static map `initialized` becomes
the list of filenames already written in this process.  On a first write the
file is opened with std::ios::out, which truncates an ofstream: whatever the
file held before, its content becomes the header row followed by the new data
row.  Later writes open in std::ios::app mode and append one data row. -/
def LogToCsv (fs : Fs) (initializedTables : List String) (filename header : String)
    (values : List ℝ) : Fs × List String :=
  if filename ∉ initializedTables then
    ((fun f => if f = filename then [CsvRow.headerRow header, CsvRow.dataRow values] else fs f),
      filename :: initializedTables)
  else
    ((fun f => if f = filename then fs f ++ [CsvRow.dataRow values] else fs f),
      initializedTables)

/-- Embeds struct SimulationParams (src lines 37-43), with its in-class
default member values. -/
structure SimulationParams where
  nSta : ℕ := 500
  simTime : ℚ := 10
  dpEpsilon : ℚ := 1
  modes : List String := ["AITP", "CAIP", "NAP"]
  nStaValues : List ℕ := [50, 100, 200, 300, 400, 500]

/-- A SimulationParams with every field at its default. -/
def defaultParams : SimulationParams := {}

/-- Modulus of minstd_rand0, the linear congruential engine behind
libstdc++'s std::default_random_engine. -/
def minstdModulus : ℕ := 2147483647

/-- Multiplier of minstd_rand0. -/
def minstdMultiplier : ℕ := 16807

/-- The engine in GetRandomFailureRate (src line 47) is default-constructed
(`static std::default_random_engine gen;`), which the C++ standard defines as
seeding with the fixed constant default_seed = 1.  The program never seeds it
from any per-run entropy source. -/
def minstdDefaultSeed : ℕ := 1

/-- One step of the engine: x becomes 16807 * x mod 2147483647. -/
def lcgNext (s : ℕ) : ℕ := minstdMultiplier * s % minstdModulus

/-- Embeds GetRandomFailureRate (src lines 46-50) with the engine state passed
explicitly: advance the engine once and map its output into [0,1).  The exact
double that uniform_real_distribution produces from the engine output is
implementation defined; it is modelled as state divided by modulus, a
deterministic function of the engine state, which is all that any claim about
this program depends on. -/
def GetRandomFailureRate (s : ℕ) : ℚ × ℕ :=
  ((lcgNext s : ℚ) / (minstdModulus : ℚ), lcgNext s)

/-- Loop body of ComputeLatency (src lines 54-62): baseline 10 + 200/n scaled
by the mode branch (AITP factor 0.9683, CAIP unscaled, anything else takes the
final else branch with factor 1.35). -/
def latencyFor (mode : String) (n : ℕ) : ℚ :=
  let baseLatency : ℚ := 10 + 200 / (n : ℚ)
  if mode = "AITP" then baseLatency * 0.9683
  else if mode = "CAIP" then baseLatency
  else baseLatency * 1.35

/-- Embeds ComputeLatency (src lines 52-65): one value per entry of
params.nStaValues.  The nSta argument is unused, exactly as in the source. -/
def ComputeLatency (params : SimulationParams) (mode : String) (nSta : ℕ) : List ℚ :=
  params.nStaValues.map (latencyFor mode)

/-- Loop body of ComputeThroughput (src lines 69-77): baseline
30 * ln(1 + n/2) scaled by the mode branch. -/
noncomputable def throughputFor (mode : String) (n : ℕ) : ℝ :=
  let baseThroughput : ℝ := 30 * Real.log (1 + (n : ℝ) / 2)
  if mode = "AITP" then baseThroughput * 1.117
  else if mode = "CAIP" then baseThroughput
  else baseThroughput * 0.5462

/-- Embeds ComputeThroughput (src lines 67-80). -/
noncomputable def ComputeThroughput (params : SimulationParams) (mode : String)
    (nSta : ℕ) : List ℝ :=
  params.nStaValues.map (throughputFor mode)

/-- Loop body of ComputeEnergyEfficiency (src lines 84-92): baseline 0.4 * n
scaled by the mode branch. -/
def energyFor (mode : String) (n : ℕ) : ℚ :=
  let baseEfficiency : ℚ := 0.4 * (n : ℚ)
  if mode = "AITP" then baseEfficiency * 1.27
  else if mode = "CAIP" then baseEfficiency
  else baseEfficiency * 0.78

/-- Embeds ComputeEnergyEfficiency (src lines 82-95). -/
def ComputeEnergyEfficiency (params : SimulationParams) (mode : String) (nSta : ℕ) : List ℚ :=
  params.nStaValues.map (energyFor mode)

/-- Loop body of ComputePrivacyLoss (src lines 99-107): baseline 2/ε scaled by
the mode branch; the loop variable n is never used. -/
def privacyFor (eps : ℚ) (mode : String) : ℚ :=
  let baseLoss : ℚ := 2 / eps
  if mode = "AITP" then baseLoss * 0.875
  else if mode = "CAIP" then baseLoss
  else baseLoss * 1.2

/-- Embeds ComputePrivacyLoss (src lines 97-110): one (constant) value per
entry of params.nStaValues. -/
def ComputePrivacyLoss (params : SimulationParams) (mode : String) (nSta : ℕ) : List ℚ :=
  params.nStaValues.map (fun _ => privacyFor params.dpEpsilon mode)

/-- Loop of ComputeRobustness (src lines 114-124): one fresh draw per swept
size, threading the shared engine state, baseline 1 - failureRate * 0.5
scaled by the mode branch. -/
def robustnessAux (mode : String) : List ℕ → ℕ → List ℚ × ℕ
  | [], s => ([], s)
  | _ :: ns, s =>
    let fr := (GetRandomFailureRate s).1
    let s' := (GetRandomFailureRate s).2
    let baseRobustness : ℚ := 1 - fr * 0.5
    let v := if mode = "AITP" then baseRobustness * 1.335
      else if mode = "CAIP" then baseRobustness
      else baseRobustness * 0.8
    (v :: (robustnessAux mode ns s').1, (robustnessAux mode ns s').2)

/-- Embeds ComputeRobustness (src lines 112-126), returning the series
together with the engine state after the call. -/
def ComputeRobustness (params : SimulationParams) (mode : String) (nSta : ℕ)
    (s : ℕ) : List ℚ × ℕ :=
  robustnessAux mode params.nStaValues s

/-- The header literal main writes for every table (src line 196). -/
def headerLiteral : String := "nSta=50,nSta=100,nSta=200,nSta=300,nSta=400,nSta=500"

/-- Spec-side header derivation, following the spec's words: one column label
per entry of sweepSizes, in sweep order. -/
def headerFor (sizes : List ℕ) : String :=
  String.intercalate "," (sizes.map (fun v => "nSta=" ++ toString v))

/-- One LogToCsv call as main issues it: filename, header, row values. -/
abbrev SinkCall := String × String × List ℝ

/-- The five LogToCsv calls main issues for one mode (src lines 185-203), in
source order, with the engine state threaded through the robustness call.
The rational-valued series are coerced to the reals the sink receives. -/
noncomputable def modeCalls (params : SimulationParams) (mode : String) (s : ℕ) :
    List SinkCall × ℕ :=
  let pfx := "results_" ++ mode
  ([(pfx ++ "_latency.csv", headerLiteral,
      (ComputeLatency params mode params.nSta).map (fun q => (q : ℝ))),
    (pfx ++ "_throughput.csv", headerLiteral,
      ComputeThroughput params mode params.nSta),
    (pfx ++ "_energy.csv", headerLiteral,
      (ComputeEnergyEfficiency params mode params.nSta).map (fun q => (q : ℝ))),
    (pfx ++ "_privacy.csv", headerLiteral,
      (ComputePrivacyLoss params mode params.nSta).map (fun q => (q : ℝ))),
    (pfx ++ "_robustness.csv", headerLiteral,
      ((ComputeRobustness params mode params.nSta s).1).map (fun q => (q : ℝ)))],
   (ComputeRobustness params mode params.nSta s).2)

/-- The metric loop of main over the configured modes (src lines 185-204). -/
noncomputable def mainCallsAux (params : SimulationParams) :
    List String → ℕ → List SinkCall
  | [], _ => []
  | m :: ms, s => (modeCalls params m s).1 ++ mainCallsAux params ms (modeCalls params m s).2

/-- The full sequence of LogToCsv calls one execution of main performs. -/
noncomputable def mainCalls (params : SimulationParams) (s : ℕ) : List SinkCall :=
  mainCallsAux params params.modes s

/-- Models the entry point's parameter handling (src lines 129-137): ns3
CommandLine AddValue/Parse writes any supplied nSta or dpEpsilon override
straight into the struct fields; main performs no range validation anywhere
before driving the metric loop. -/
def parseOverrides (nStaArg : Option ℕ) (epsArg : Option ℚ) : SimulationParams :=
  { defaultParams with nSta := nStaArg.getD 500, dpEpsilon := epsArg.getD 1 }

/-- One full process execution of the metric pipeline.  runId labels an
invocation; the program reads no per-invocation entropy (the engine is
default-constructed with the fixed default seed), so runId cannot influence
the output. -/
noncomputable def processRun (runId : ℕ) (params : SimulationParams) : List SinkCall :=
  mainCalls params minstdDefaultSeed

/-- Spec-side latency baseline: 10 + 200/n. -/
def specLatencyBase (n : ℕ) : ℚ := 10 + 200 / (n : ℚ)

/-- Spec-side throughput baseline: 30 * ln(1 + n/2). -/
noncomputable def specThroughputBase (n : ℕ) : ℝ := 30 * Real.log (1 + (n : ℝ) / 2)

/-- Spec-side energy-efficiency baseline: 0.4 * n. -/
def specEnergyBase (n : ℕ) : ℚ := 0.4 * (n : ℚ)

/-- Spec-side privacy-loss baseline: 2/ε. -/
def specPrivacyBase (eps : ℚ) : ℚ := 2 / eps

/-- Latency strategy factors as the spec table states them. -/
def specLatencyFactor (mode : String) : ℚ :=
  if mode = "AITP" then 0.9683 else if mode = "NAP" then 1.35 else 1

/-- Throughput strategy factors as the spec table states them. -/
noncomputable def specThroughputFactor (mode : String) : ℝ :=
  if mode = "AITP" then 1.117 else if mode = "NAP" then 0.5462 else 1

/-- Energy-efficiency strategy factors as the spec table states them. -/
def specEnergyFactor (mode : String) : ℚ :=
  if mode = "AITP" then 1.27 else if mode = "NAP" then 0.78 else 1

/-- Privacy-loss strategy factors as the spec table states them. -/
def specPrivacyFactor (mode : String) : ℚ :=
  if mode = "AITP" then 0.875 else if mode = "NAP" then 1.2 else 1


/-- C1: for every strategy among AITP, CAIP, NAP, every swept size (taken at
any position of sweepSizes) and every positive privacy budget, the computed
latency, throughput, energy-efficiency and privacy-loss values equal the
metric's baseline formula times that strategy's fixed factor, and every CAIP
factor is exactly 1. -/
theorem metric_values_eq_baseline_mul_factor (p : SimulationParams) (mode : String)
    (k i n : ℕ) (hm : mode = "AITP" ∨ mode = "CAIP" ∨ mode = "NAP")
    (hε : 0 < p.dpEpsilon) (hn : p.nStaValues[i]? = some n) :
    (ComputeLatency p mode k)[i]? = some (specLatencyBase n * specLatencyFactor mode) ∧
    (ComputeThroughput p mode k)[i]? = some (specThroughputBase n * specThroughputFactor mode) ∧
    (ComputeEnergyEfficiency p mode k)[i]? = some (specEnergyBase n * specEnergyFactor mode) ∧
    (ComputePrivacyLoss p mode k)[i]? = some (specPrivacyBase p.dpEpsilon * specPrivacyFactor mode) ∧
    specLatencyFactor "CAIP" = 1 ∧ specThroughputFactor "CAIP" = 1 ∧
    specEnergyFactor "CAIP" = 1 ∧ specPrivacyFactor "CAIP" = 1 := by
  have hi : i < p.nStaValues.length := by
    by_contra hcon
    push_neg at hcon
    rw [List.getElem?_eq_none hcon] at hn
    exact Option.noConfusion hn
  have hv : p.nStaValues[i] = n := by
    rw [List.getElem?_eq_getElem hi] at hn
    exact Option.some.inj hn
  rcases hm with rfl | rfl | rfl <;>
    refine ⟨?_, ?_, ?_, ?_, by simp [specLatencyFactor], by simp [specThroughputFactor],
      by simp [specEnergyFactor], by simp [specPrivacyFactor]⟩ <;>
    simp [ComputeLatency, ComputeThroughput, ComputeEnergyEfficiency, ComputePrivacyLoss,
      latencyFor, throughputFor, energyFor, privacyFor, specLatencyBase, specThroughputBase,
      specEnergyBase, specPrivacyBase, specLatencyFactor, specThroughputFactor,
      specEnergyFactor, specPrivacyFactor, List.getElem?_map, List.getElem?_replicate,
      hn, hi, hv]

/-- Witness for C1 at strategy CAIP, position 0 (swept size 50), default
parameters (privacy budget 1). -/
theorem metric_values_eq_baseline_mul_factor_witness :
    (("CAIP" : String) = "AITP" ∨ ("CAIP" : String) = "CAIP" ∨ ("CAIP" : String) = "NAP") ∧
    0 < defaultParams.dpEpsilon ∧
    defaultParams.nStaValues[0]? = some 50 ∧
    ((ComputeLatency defaultParams "CAIP" 500)[0]? =
        some (specLatencyBase 50 * specLatencyFactor "CAIP") ∧
      (ComputeThroughput defaultParams "CAIP" 500)[0]? =
        some (specThroughputBase 50 * specThroughputFactor "CAIP") ∧
      (ComputeEnergyEfficiency defaultParams "CAIP" 500)[0]? =
        some (specEnergyBase 50 * specEnergyFactor "CAIP") ∧
      (ComputePrivacyLoss defaultParams "CAIP" 500)[0]? =
        some (specPrivacyBase defaultParams.dpEpsilon * specPrivacyFactor "CAIP") ∧
      specLatencyFactor "CAIP" = 1 ∧ specThroughputFactor "CAIP" = 1 ∧
      specEnergyFactor "CAIP" = 1 ∧ specPrivacyFactor "CAIP" = 1) :=
  ⟨Or.inr (Or.inl rfl), by norm_num [defaultParams], rfl,
    metric_values_eq_baseline_mul_factor defaultParams "CAIP" 500 0 50
      (Or.inr (Or.inl rfl)) (by norm_num [defaultParams]) rfl⟩

/-- C2 counterexample: invoking the latency model with the unrecognized
strategy identifier "XYZ" does not fail; it silently takes the final else
branch and returns the NAP-factored series (six values). -/
theorem unrecognized_mode_yields_values_cex :
    ComputeLatency defaultParams "XYZ" 500 = ComputeLatency defaultParams "NAP" 500 ∧
    ComputeLatency defaultParams "XYZ" 500 =
      defaultParams.nStaValues.map (fun n => (10 + 200 / (n : ℚ)) * 1.35) ∧
    (ComputeLatency defaultParams "XYZ" 500).length = 6 :=
  ⟨rfl, rfl, rfl⟩

/-- Helper for C2: the robustness loop treats any mode other than AITP and
CAIP exactly as it treats NAP. -/
theorem robustnessAux_mode_eq_nap (mode : String) (hA : mode ≠ "AITP")
    (hC : mode ≠ "CAIP") :
    ∀ (ns : List ℕ) (s : ℕ), robustnessAux mode ns s = robustnessAux "NAP" ns s := by
  intro ns
  induction ns with
  | nil => intro s; rfl
  | cons n ns ih => intro s; simp [robustnessAux, hA, hC, ih]

/-- C2 amended: a strategy identifier that is not AITP and not CAIP is
silently treated as NAP by every metric model: each model returns the same
series it returns for NAP (robustness compared at the same engine state), and
no error is signalled. -/
theorem unrecognized_mode_treated_as_nap (p : SimulationParams) (mode : String)
    (k s : ℕ) (hA : mode ≠ "AITP") (hC : mode ≠ "CAIP") :
    ComputeLatency p mode k = ComputeLatency p "NAP" k ∧
    ComputeThroughput p mode k = ComputeThroughput p "NAP" k ∧
    ComputeEnergyEfficiency p mode k = ComputeEnergyEfficiency p "NAP" k ∧
    ComputePrivacyLoss p mode k = ComputePrivacyLoss p "NAP" k ∧
    ComputeRobustness p mode k s = ComputeRobustness p "NAP" k s := by
  refine ⟨?_, ?_, ?_, ?_, ?_⟩
  · simp [ComputeLatency, latencyFor, hA, hC]
  · simp [ComputeThroughput, throughputFor, hA, hC]
  · simp [ComputeEnergyEfficiency, energyFor, hA, hC]
  · simp [ComputePrivacyLoss, privacyFor, hA, hC]
  · simp [ComputeRobustness, robustnessAux_mode_eq_nap mode hA hC]

/-- Witness for C2's amended statement at the unrecognized identifier "XYZ". -/
theorem unrecognized_mode_treated_as_nap_witness :
    ("XYZ" : String) ≠ "AITP" ∧ ("XYZ" : String) ≠ "CAIP" ∧
    (ComputeLatency defaultParams "XYZ" 500 = ComputeLatency defaultParams "NAP" 500 ∧
      ComputeThroughput defaultParams "XYZ" 500 = ComputeThroughput defaultParams "NAP" 500 ∧
      ComputeEnergyEfficiency defaultParams "XYZ" 500 =
        ComputeEnergyEfficiency defaultParams "NAP" 500 ∧
      ComputePrivacyLoss defaultParams "XYZ" 500 = ComputePrivacyLoss defaultParams "NAP" 500 ∧
      ComputeRobustness defaultParams "XYZ" 500 1 = ComputeRobustness defaultParams "NAP" 500 1) :=
  ⟨by decide, by decide,
    unrecognized_mode_treated_as_nap defaultParams "XYZ" 500 1 (by decide) (by decide)⟩

/-- C3 counterexample: the override ε = -1 (a privacy budget at most 0) is
accepted unchanged, the run still performs all fifteen table writes, and the
privacy-loss model receives the out-of-range budget and computes a series of
six values equal to -2 each; no configuration error interrupts the run. -/
theorem no_validation_negative_epsilon_cex :
    (parseOverrides none (some (-1))).dpEpsilon = -1 ∧
    (mainCalls (parseOverrides none (some (-1))) minstdDefaultSeed).length = 15 ∧
    ComputePrivacyLoss (parseOverrides none (some (-1))) "CAIP" 500 =
      List.replicate 6 (-2) := by
  refine ⟨rfl, rfl, ?_⟩
  simp [ComputePrivacyLoss, privacyFor, parseOverrides, defaultParams]
  norm_num [List.replicate]

/-- C3 amended: main performs no validation of the overrides: for every
supplied nSta and ε (including zero and negative values) the parameters are
constructed as given, the run performs all fifteen table writes, and the
privacy-loss model receives the raw budget, producing the value 2/ε per swept
size. -/
theorem overrides_unvalidated_run_proceeds (a : Option ℕ) (e : Option ℚ) (k s : ℕ) :
    (mainCalls (parseOverrides a e) s).length = 15 ∧
    ComputePrivacyLoss (parseOverrides a e) "CAIP" k =
      List.replicate 6 (2 / (parseOverrides a e).dpEpsilon) := by
  constructor
  · rfl
  · simp [ComputePrivacyLoss, privacyFor, parseOverrides, defaultParams]

/-- C4: writing a table identifier not yet seen in this process writes the
header row exactly once followed by the data row, and a second write to the
same identifier appends exactly one further data row, so the table then holds
one header and two data rows in call order. -/
theorem logToCsv_header_once_two_rows (fs : Fs) (st : List String) (f h : String)
    (v1 v2 : List ℝ) (hfresh : f ∉ st) :
    (LogToCsv fs st f h v1).1 f = [CsvRow.headerRow h, CsvRow.dataRow v1] ∧
    (LogToCsv (LogToCsv fs st f h v1).1 (LogToCsv fs st f h v1).2 f h v2).1 f =
      [CsvRow.headerRow h, CsvRow.dataRow v1, CsvRow.dataRow v2] := by
  constructor
  · simp [LogToCsv, hfresh]
  · simp [LogToCsv, hfresh]

/-- Witness for C4: a fresh sink, one table, two writes. -/
theorem logToCsv_header_once_two_rows_witness :
    ("t" : String) ∉ ([] : List String) ∧
    (LogToCsv (fun _ => []) [] "t" "h" [1]).1 "t" =
      [CsvRow.headerRow "h", CsvRow.dataRow [1]] ∧
    (LogToCsv (LogToCsv (fun _ => []) [] "t" "h" [1]).1
        (LogToCsv (fun _ => []) [] "t" "h" [1]).2 "t" "h" [2]).1 "t" =
      [CsvRow.headerRow "h", CsvRow.dataRow [1], CsvRow.dataRow [2]] :=
  ⟨by simp,
    (logToCsv_header_once_two_rows (fun _ => []) [] "t" "h" [1] [2] (by simp)).1,
    (logToCsv_header_once_two_rows (fun _ => []) [] "t" "h" [1] [2] (by simp)).2⟩

/-- C10: a first write to a table identifier replaces whatever the
destination file held (std::ios::out truncates), leaving exactly the header
and the new data row, while a write to an already-seen identifier opens in
append mode and appends the data row to the existing content. -/
theorem logToCsv_truncate_then_append (fs : Fs) (st : List String) (f h : String)
    (v : List ℝ) :
    (f ∉ st → (LogToCsv fs st f h v).1 f = [CsvRow.headerRow h, CsvRow.dataRow v]) ∧
    (f ∈ st → (LogToCsv fs st f h v).1 f = fs f ++ [CsvRow.dataRow v]) := by
  constructor <;> intro hf <;> simp [LogToCsv, hf]

/-- Witness for C10: a file with stale content from a previous run loses that
content on the first write of the process, and keeps it on an append. -/
theorem logToCsv_truncate_then_append_witness :
    ("t" : String) ∉ ([] : List String) ∧
    (LogToCsv (fun _ => [CsvRow.dataRow [99]]) [] "t" "h" [1]).1 "t" =
      [CsvRow.headerRow "h", CsvRow.dataRow [1]] ∧
    ("t" : String) ∈ ["t"] ∧
    (LogToCsv (fun _ => [CsvRow.dataRow [99]]) ["t"] "t" "h" [1]).1 "t" =
      [CsvRow.dataRow [99], CsvRow.dataRow [1]] :=
  ⟨by simp,
    (logToCsv_truncate_then_append (fun _ => [CsvRow.dataRow [99]]) [] "t" "h" [1]).1 (by simp),
    by simp,
    (logToCsv_truncate_then_append (fun _ => [CsvRow.dataRow [99]]) ["t"] "t" "h" [1]).2 (by simp)⟩

/-- C5 counterexample: two independent process runs with identical (default)
inputs produce the identical sequence of sink calls, robustness series
included: the engine is default-constructed with the fixed default seed, so a
rerun cannot differ. -/
theorem robustness_runs_identical_cex :
    processRun 1 defaultParams = processRun 2 defaultParams := rfl

/-- Helper for C5: the robustness loop produces one value per swept size. -/
theorem robustnessAux_length (mode : String) :
    ∀ (ns : List ℕ) (s : ℕ), (robustnessAux mode ns s).1.length = ns.length := by
  intro ns
  induction ns with
  | nil => intro s; rfl
  | cons n ns ih => intro s; simp [robustnessAux, ih]

/-- Helper for C5: the robustness loop advances the engine exactly once per
swept size. -/
theorem robustnessAux_state (mode : String) :
    ∀ (ns : List ℕ) (s : ℕ), (robustnessAux mode ns s).2 = lcgNext^[ns.length] s := by
  intro ns
  induction ns with
  | nil => intro s; rfl
  | cons n ns ih =>
    intro s
    simp [robustnessAux, ih, GetRandomFailureRate, Function.iterate_succ_apply]

/-- C5 amended: the robustness model draws one fresh value per swept size from
the process-wide engine, but that engine is default-constructed with the fixed
default seed, so any two process runs with identical inputs yield identical
output, robustness series included. -/
theorem robustness_deterministic_fixed_seed (r1 r2 : ℕ) (p : SimulationParams)
    (mode : String) (k s : ℕ) :
    processRun r1 p = processRun r2 p ∧
    (ComputeRobustness p mode k s).1.length = p.nStaValues.length ∧
    (ComputeRobustness p mode k s).2 = lcgNext^[p.nStaValues.length] s :=
  ⟨rfl, robustnessAux_length mode p.nStaValues s, robustnessAux_state mode p.nStaValues s⟩

/-- C6 counterexample: main writes the fixed header literal regardless of the
configured sweepSizes.  With nStaValues set to [10], all fifteen table writes
still carry the literal "nSta=50,...,nSta=500", which is not the one-label-
per-entry header derived from [10]. -/
theorem header_not_derived_from_sweep_cex :
    ((mainCalls { defaultParams with nStaValues := [10] } minstdDefaultSeed).map
      (fun c => c.2.1)) = List.replicate 15 headerLiteral ∧
    headerLiteral ≠ headerFor [10] :=
  ⟨rfl, by decide⟩

/-- C6 amended: the header is a fixed literal, not derived from the configured
sweepSizes; it coincides with the spec's derivation exactly because the sweep
is not overridable.  For every run reachable through the entry point's
overrides, every table write carries a header equal to one nSta label per
entry of that run's sweepSizes, in sweep order. -/
theorem header_matches_default_sweep (a : Option ℕ) (e : Option ℚ) (s : ℕ) :
    ((mainCalls (parseOverrides a e) s).map (fun c => c.2.1)) =
      List.replicate 15 (headerFor (parseOverrides a e).nStaValues) := by
  have h : headerFor (parseOverrides a e).nStaValues = headerLiteral := by
    show headerFor [50, 100, 200, 300, 400, 500] = headerLiteral
    decide
  rw [h]
  rfl

/-- C7: the selected populationCount influences no metric series.  Changing
the nSta field and the nSta argument in any way leaves every model's output
unchanged, robustness included when compared at the same engine state. -/
theorem nSta_does_not_affect_metrics (p : SimulationParams) (mode : String)
    (k a b s : ℕ) :
    ComputeLatency { p with nSta := k } mode a = ComputeLatency p mode b ∧
    ComputeThroughput { p with nSta := k } mode a = ComputeThroughput p mode b ∧
    ComputeEnergyEfficiency { p with nSta := k } mode a = ComputeEnergyEfficiency p mode b ∧
    ComputePrivacyLoss { p with nSta := k } mode a = ComputePrivacyLoss p mode b ∧
    ComputeRobustness { p with nSta := k } mode a s = ComputeRobustness p mode b s :=
  ⟨rfl, rfl, rfl, rfl, rfl⟩

/-- C8: for any fixed strategy branch, the per-size latency value is strictly
decreasing in the swept size. -/
theorem latency_strictly_decreasing (mode : String) (n1 n2 : ℕ) (h1 : 0 < n1)
    (h12 : n1 < n2) : latencyFor mode n2 < latencyFor mode n1 := by
  have h1' : (0 : ℚ) < (n1 : ℚ) := by exact_mod_cast h1
  have h12' : (n1 : ℚ) < (n2 : ℚ) := by exact_mod_cast h12
  have hb : (10 : ℚ) + 200 / (n2 : ℚ) < 10 + 200 / (n1 : ℚ) := by
    have := div_lt_div_of_pos_left (show (0 : ℚ) < 200 by norm_num) h1' h12'
    linarith
  simp only [latencyFor]
  split_ifs
  · exact mul_lt_mul_of_pos_right hb (by norm_num)
  · exact hb
  · exact mul_lt_mul_of_pos_right hb (by norm_num)

/-- Witness for C8 at sizes 1 < 2 for the reference strategy. -/
theorem latency_strictly_decreasing_witness :
    0 < 1 ∧ 1 < 2 ∧ latencyFor "CAIP" 2 < latencyFor "CAIP" 1 :=
  ⟨by decide, by decide,
    latency_strictly_decreasing "CAIP" 1 2 (by decide) (by decide)⟩

/-- C9: the privacy-loss series is constant across the sweep (one identical
value per swept size), and halving a positive budget exactly doubles the
reference-strategy privacy loss. -/
theorem privacy_loss_constant_and_inverse_in_eps (p : SimulationParams)
    (mode : String) (k : ℕ) (ε : ℚ) (hε : 0 < ε) :
    ComputePrivacyLoss p mode k =
      List.replicate p.nStaValues.length (privacyFor p.dpEpsilon mode) ∧
    privacyFor (ε / 2) "CAIP" = 2 * privacyFor ε "CAIP" := by
  constructor
  · simp [ComputePrivacyLoss]
  · show (2 : ℚ) / (ε / 2) = 2 * (2 / ε)
    rw [div_div_eq_mul_div, mul_div_assoc]

/-- Witness for C9 at the default parameters and budget 1. -/
theorem privacy_loss_constant_and_inverse_in_eps_witness :
    (0 : ℚ) < 1 ∧
    (ComputePrivacyLoss defaultParams "CAIP" 500 =
        List.replicate defaultParams.nStaValues.length
          (privacyFor defaultParams.dpEpsilon "CAIP") ∧
      privacyFor (1 / 2) "CAIP" = 2 * privacyFor 1 "CAIP") :=
  ⟨by norm_num,
    privacy_loss_constant_and_inverse_in_eps defaultParams "CAIP" 500 1 (by norm_num)⟩
